import Mathlib

/-!
Verification development for the dummybox HTTP test-double server.

Each Go package of the request-scoped background-job core (cmd/memory,
cmd/cpu, cmd/log, cmd/delay) is shallowly embedded below: pure helpers
become Lean functions, the process-wide maps (`memoryBlocks`, `cpuJobs`)
become explicit association lists threaded through the handlers, goroutines
scheduled by a handler are recorded as data in the handler's result
(e.g. a scheduled deallocation is an `Option (Int × String)`), and ambient
randomness (`math/rand`) and clock values (`time.Now().Format(...)`) are
passed in as explicit arguments.  Go `int` parameters are modelled as `Int`
(no arithmetic near 2^63 occurs on the modelled paths), byte values as
`Nat` mod 256.
-/

/-- JSON value fragment sufficient for the handlers' response maps: the
handlers only ever emit strings and integers. -/
inductive JVal where
  | str (s : String)
  | num (n : Int)
  deriving DecidableEq, Repr

/-- Lookup in an association list, modelling a read of a Go map. -/
def mapLookup (k : String) (m : List (String × α)) : Option α :=
  List.lookup k m

/-- Removal of a key, modelling Go's `delete(m, k)`. -/
def mapErase (k : String) (m : List (String × α)) : List (String × α) :=
  m.filter (fun p => p.1 != k)

/-- Insertion, modelling Go's `m[k] = v` (last write wins). -/
def mapInsert (k : String) (v : α) (m : List (String × α)) : List (String × α) :=
  (k, v) :: mapErase k m

theorem mapLookup_erase_ne (k k' : String) (m : List (String × α))
    (h : k' ≠ k) : mapLookup k' (mapErase k m) = mapLookup k' m := by
  induction m with
  | nil => rfl
  | cons p t ih =>
    cases p with
    | mk a b =>
      by_cases hp : a = k
      · subst hp
        simp only [mapErase, mapLookup] at ih ⊢
        rw [List.filter_cons_of_neg (by simp)]
        rw [ih, List.lookup_cons]
        simp [beq_false_of_ne h]
      · simp only [mapErase, mapLookup] at ih ⊢
        rw [List.filter_cons_of_pos (by simpa using hp)]
        rw [List.lookup_cons, List.lookup_cons]
        cases hke : (k' == a) with
        | true => simp
        | false => simpa using ih

theorem mapLookup_insert_self (k : String) (v : α) (m : List (String × α)) :
    mapLookup k (mapInsert k v m) = some v := by
  simp [mapLookup, mapInsert, List.lookup_cons]

theorem mapLookup_insert_ne (k k' : String) (v : α) (m : List (String × α))
    (h : k' ≠ k) : mapLookup k' (mapInsert k v m) = mapLookup k' m := by
  have := mapLookup_erase_ne k k' m h
  simp only [mapLookup, mapInsert] at this ⊢
  rw [List.lookup_cons]
  simpa [beq_false_of_ne h] using this

theorem mapLookup_erase_self (k : String) (m : List (String × α)) :
    mapLookup k (mapErase k m) = none := by
  induction m with
  | nil => rfl
  | cons p t ih =>
    cases p with
    | mk a b =>
      by_cases hp : a = k
      · subst hp
        simp only [mapErase, mapLookup] at ih ⊢
        rw [List.filter_cons_of_neg (by simp)]
        exact ih
      · simp only [mapErase, mapLookup] at ih ⊢
        rw [List.filter_cons_of_pos (by simpa using hp)]
        rw [List.lookup_cons]
        simp only [beq_false_of_ne (fun h : k = a => hp h.symm)]
        exact ih

/-- Decimal rendering of a Go `int`, modelling `fmt.Sprintf("%d", n)`. -/
def intRepr (i : Int) : String :=
  if i < 0 then "-" ++ Nat.repr i.natAbs else Nat.repr i.toNat

/-- HTTP method of a request; only GET and POST are distinguished by the
embedded handlers. -/
inductive Method where
  | get
  | post
  deriving DecidableEq

namespace memory

/-! Embedding of `cmd/memory/memory.go`.  The process-global map
`memoryBlocks : map[string][][]byte` is threaded explicitly; the
deallocation goroutine spawned by `MemoryHandler` is recorded in the
result as the pair (delay in seconds, allocation key). -/

/-- Parameters of the memory endpoint (`MemoryParams`). -/
structure MemoryParams where
  size : Int
  duration : Int
  deriving DecidableEq

/-- Model of one allocated byte block: its length together with its
contents (`block[j] = byte(i + j)`, bytes modelled as `Nat` mod 256). -/
structure ByteBlock where
  len : Nat
  byteAt : Nat → Nat

/-- Block allocated at chunk index `i` in `allocateMemory`. -/
def mkBlock (i len : Nat) : ByteBlock :=
  { len := len, byteAt := fun j => (i + j) % 256 }

/-- Chunk size used by `allocateMemory`: `10 * 1024 * 1024` bytes. -/
def chunkSize : Nat := 10 * 1024 * 1024

/-- Block list built by `allocateMemory` for `sizeMB` megabytes:
`numChunks` full chunks followed by a remainder block when the remainder
is non-zero. -/
def allocateBlocks (sizeMB : Nat) : List ByteBlock :=
  let totalBytes := sizeMB * 1024 * 1024
  let numChunks := totalBytes / chunkSize
  let remainder := totalBytes % chunkSize
  (List.range numChunks).map (fun i => mkBlock i chunkSize) ++
    (if remainder > 0 then [mkBlock numChunks remainder] else [])

/-- Model of `allocateMemory`: stores the blocks under `key` in the
`memoryBlocks` map (the Go function never returns an error). -/
def allocateMemory (key : String) (sizeMB : Nat)
    (st : List (String × List ByteBlock)) : List (String × List ByteBlock) :=
  mapInsert key (allocateBlocks sizeMB) st

/-- Model of `deallocateMemory`: clears the block references of `key` and
deletes the entry from the `memoryBlocks` map (no-op when absent). -/
def deallocateMemory (key : String) (st : List (String × List ByteBlock)) :
    List (String × List ByteBlock) :=
  mapErase key st

/-- Size validation of `MemoryHandler`: out of `[1, 8192]` defaults to 100. -/
def validateSize (s : Int) : Int :=
  if s < 1 ∨ s > 8192 then 100 else s

/-- Duration validation of `MemoryHandler`: out of `[0, 3600]` defaults
to 60. -/
def validateDuration (d : Int) : Int :=
  if d < 0 ∨ d > 3600 then 60 else d

/-- Request to the memory endpoint.  A query parameter is `none` when it
is absent or fails `strconv.Atoi` (both leave the default in place);
`body = none` models a POST body that fails JSON decoding. -/
structure Request where
  method : Method
  qSize : Option Int
  qDuration : Option Int
  body : Option MemoryParams
  format : Option String

/-- Parameter extraction of `MemoryHandler` (defaults 100 MB / 60 s,
query or body overrides); `none` is the JSON-decode failure path. -/
def parseParams (r : Request) : Option MemoryParams :=
  match r.method with
  | .get => some { size := r.qSize.getD 100, duration := r.qDuration.getD 60 }
  | .post => r.body

/-- Result of one `MemoryHandler` invocation: HTTP status, response map,
new `memoryBlocks` map, and the scheduled deallocation goroutine
(delay in seconds, allocation key) when one is started. -/
structure Result where
  status : Nat
  response : List (String × JVal)
  blocks : List (String × List ByteBlock)
  dealloc : Option (Int × String)

/-- Model of `MemoryHandler`.  `ts` is `time.Now().Format("20060102-150405")`
and `heap` the rendered `current_heap_mb` runtime statistic, both passed in
explicitly.  The text-format branch renders the same data as one string. -/
def MemoryHandler (ts heap : String) (r : Request)
    (st : List (String × List ByteBlock)) : Result :=
  match parseParams r with
  | none =>
      { status := 400
        response := [("error", .str "Invalid JSON body")]
        blocks := st
        dealloc := none }
  | some p =>
      let size := validateSize p.size
      let dur := validateDuration p.duration
      let allocKey := ts ++ "-" ++ intRepr size
      let st' := allocateMemory allocKey size.toNat st
      { status := 200
        response :=
          if r.format = some "text" then
            [("body", .str ("Allocated " ++ intRepr size ++ "MB of memory for "
              ++ intRepr dur ++ " seconds\nCurrent heap size: " ++ heap
              ++ "MB\nAllocation key: " ++ allocKey ++ "\n"))]
          else
            [("size_mb", .str (intRepr size)),
             ("duration", .str (intRepr dur)),
             ("allocation_key", .str allocKey),
             ("current_heap_mb", .str heap),
             ("message", .str ("Allocated " ++ intRepr size
               ++ "MB of memory for " ++ intRepr dur ++ " seconds"))]
        blocks := st'
        dealloc := if dur > 0 then some (dur, allocKey) else none }

end memory

/-! Decimal-representation facts about `Nat.repr`, used to show that CPU
job keys embedding distinct counters are distinct strings. -/

/-- Digit list of `n` in base 10, most significant first; the specification
that `Nat.toDigitsCore` computes. -/
def digitsSpec (n : Nat) : List Char :=
  if n < 10 then [Nat.digitChar n]
  else digitsSpec (n / 10) ++ [Nat.digitChar (n % 10)]
  termination_by n
  decreasing_by
    exact Nat.div_lt_self (by omega) (by omega)

/-- Decode a digit-character list back to the number it denotes. -/
def decodeDigits (l : List Char) : Nat :=
  l.foldl (fun a c => a * 10 + (c.toNat - 48)) 0

theorem digitChar_toNat (m : Nat) (h : m < 10) :
    (Nat.digitChar m).toNat = 48 + m := by
  interval_cases m <;> rfl

theorem toDigitsCore_eq_digitsSpec (fuel : Nat) :
    ∀ (n : Nat) (acc : List Char), n < fuel →
      Nat.toDigitsCore 10 fuel n acc = digitsSpec n ++ acc := by
  induction fuel with
  | zero => intro n acc h; omega
  | succ f ih =>
    intro n acc h
    rw [Nat.toDigitsCore]
    by_cases h10 : n / 10 = 0
    · simp only [h10, if_pos rfl]
      rw [digitsSpec]
      have hn : n < 10 := by omega
      rw [if_pos hn, Nat.mod_eq_of_lt hn]
      rfl
    · simp only [if_neg h10]
      have hlt : n / 10 < f := by omega
      rw [ih (n / 10) _ hlt]
      have hn : ¬ n < 10 := by
        intro hc
        exact h10 (Nat.div_eq_of_lt hc)
      rw [show digitsSpec n = digitsSpec (n / 10) ++ [Nat.digitChar (n % 10)] from by
        rw [digitsSpec, if_neg hn]]
      simp

theorem decodeDigits_append_digit (l : List Char) (c : Char) :
    decodeDigits (l ++ [c]) = decodeDigits l * 10 + (c.toNat - 48) := by
  simp [decodeDigits, List.foldl_append]

theorem decodeDigits_digitsSpec (n : Nat) : decodeDigits (digitsSpec n) = n := by
  induction n using Nat.strong_induction_on with
  | _ n ih =>
    rw [digitsSpec]
    by_cases h : n < 10
    · rw [if_pos h]
      simp [decodeDigits, digitChar_toNat n h]
    · rw [if_neg h]
      rw [decodeDigits_append_digit]
      rw [ih (n / 10) (Nat.div_lt_self (by omega) (by omega))]
      rw [digitChar_toNat (n % 10) (Nat.mod_lt _ (by omega))]
      omega

theorem natRepr_data (n : Nat) : (Nat.repr n).data = digitsSpec n := by
  show (List.asString (Nat.toDigits 10 n)).data = digitsSpec n
  rw [Nat.toDigits, toDigitsCore_eq_digitsSpec (n + 1) n [] (Nat.lt_succ_self n)]
  simp [List.asString]

theorem natRepr_injective (m n : Nat) (h : Nat.repr m = Nat.repr n) : m = n := by
  have hd : digitsSpec m = digitsSpec n := by
    rw [← natRepr_data, ← natRepr_data, h]
  have := congrArg decodeDigits hd
  rwa [decodeDigits_digitsSpec, decodeDigits_digitsSpec] at this

namespace cpu

/-! Embedding of `cmd/cpu/cpu.go`.  The process-global state (the
`cpuJobs : map[string]context.CancelFunc` registry and the `jobCounter`)
is threaded explicitly as `CpuState`; a `context.CancelFunc` is modelled
by a numeric token (the counter value at registration, which identifies
the handle uniquely), and the duration-timeout goroutine is recorded in
the handler result as the pair (delay in seconds, job key). -/

/-- Work characteristics of one intensity tier (`IntensityConfig`);
durations are in milliseconds. -/
structure IntensityConfig where
  workSize : Nat
  workDurationMs : Nat
  sleepDurationMs : Nat
  description : String
  deriving DecidableEq

/-- Parameters of the CPU endpoint (`CPUParams`). -/
structure CPUParams where
  intensity : String
  duration : Int
  deriving DecidableEq

/-- The static, read-only tier table `intensityLevels`. -/
def intensityLevels : List (String × IntensityConfig) :=
  [("light",
    { workSize := 5000, workDurationMs := 100, sleepDurationMs := 400,
      description := "Light CPU stress - minimal system impact" }),
   ("medium",
    { workSize := 15000, workDurationMs := 250, sleepDurationMs := 250,
      description := "Medium CPU stress - moderate system load" }),
   ("heavy",
    { workSize := 30000, workDurationMs := 400, sleepDurationMs := 100,
      description := "Heavy CPU stress - high system load" }),
   ("extreme",
    { workSize := 50000, workDurationMs := 500, sleepDurationMs := 0,
      description := "Extreme CPU stress - maximum system load" })]

/-- Zero value of `IntensityConfig`, returned by a failed Go map read. -/
def zeroConfig : IntensityConfig :=
  { workSize := 0, workDurationMs := 0, sleepDurationMs := 0, description := "" }

/-- Model of `GetIntensityConfig`: the `(config, exists)` pair of the Go
map read. -/
def GetIntensityConfig (intensity : String) : IntensityConfig × Bool :=
  match mapLookup intensity intensityLevels with
  | some c => (c, true)
  | none => (zeroConfig, false)

/-- Model of `ValidateIntensity`: an exact (case-sensitive) lookup of the
string in the tier table. -/
def ValidateIntensity (intensityStr : String) : String × Bool :=
  (intensityStr, (mapLookup intensityStr intensityLevels).isSome)

/-- Duration validation of `CPUHandler`: out of `[0, 3600]` defaults to 60. -/
def validateDuration (d : Int) : Int :=
  if d < 0 ∨ d > 3600 then 60 else d

/-- Job key built under the registry lock:
`fmt.Sprintf("cpu-job-%d-%s", jobCounter, time.Now().Format("20060102-150405"))`. -/
def mkJobKey (counter : Nat) (ts : String) : String :=
  "cpu-job-" ++ Nat.repr counter ++ "-" ++ ts

/-- Process-global CPU state: the job registry (key to cancel-handle
token) and the monotonic `jobCounter`. -/
structure CpuState where
  jobs : List (String × Nat)
  counter : Nat
  deriving DecidableEq

/-- Request to the CPU endpoint; `body = none` models a POST body that
fails JSON decoding, query fields are `none` when absent (or, for the
duration, when `strconv.Atoi` fails). -/
structure Request where
  method : Method
  qIntensity : Option String
  qDuration : Option Int
  body : Option CPUParams
  format : Option String

/-- Parameter extraction of `CPUHandler` (defaults medium / 60 s). -/
def parseParams (r : Request) : Option CPUParams :=
  match r.method with
  | .get =>
      some { intensity := r.qIntensity.getD "medium",
             duration := r.qDuration.getD 60 }
  | .post => r.body

/-- Result of one `CPUHandler` invocation.  `workers` is the number of
worker goroutines started (`runtime.NumCPU()` on the success path),
`cancelToken` the registered cancellation handle, and `stopTimer` the
timeout goroutine (delay in seconds, job key) when one is started. -/
structure Result where
  status : Nat
  response : List (String × JVal)
  state : CpuState
  jobKey : Option String
  workers : Nat
  cancelToken : Option Nat
  stopTimer : Option (Int × String)

/-- Model of `CPUHandler`.  `ts` is the formatted timestamp and `numCPU`
the value of `runtime.NumCPU()`.  The fresh `context.CancelFunc` is
modelled by the incremented counter value, which is unique per job. -/
def CPUHandler (ts : String) (numCPU : Nat) (r : Request) (st : CpuState) :
    Result :=
  match parseParams r with
  | none =>
      { status := 400
        response := [("error", .str "Invalid JSON body")]
        state := st
        jobKey := none
        workers := 0
        cancelToken := none
        stopTimer := none }
  | some p =>
      let v := ValidateIntensity p.intensity
      let intensity := if v.2 then v.1 else "medium"
      let dur := validateDuration p.duration
      let config := (GetIntensityConfig intensity).1
      let counter' := st.counter + 1
      let jobKey := mkJobKey counter' ts
      let token := counter'
      let st' : CpuState := { jobs := mapInsert jobKey token st.jobs,
                              counter := counter' }
      { status := 200
        response :=
          if r.format = some "text" then
            [("body", .str ("Generating " ++ intensity ++ " CPU load for "
              ++ intRepr dur ++ " seconds\nJob key: " ++ jobKey
              ++ "\nWorkers: " ++ Nat.repr numCPU
              ++ "\nDescription: " ++ config.description ++ "\n"))]
          else
            [("intensity", .str intensity),
             ("duration", .num dur),
             ("job_key", .str jobKey),
             ("workers", .num numCPU),
             ("description", .str config.description),
             ("message", .str ("Generating " ++ intensity
               ++ " CPU load for " ++ intRepr dur ++ " seconds"))]
        state := st'
        jobKey := some jobKey
        workers := numCPU
        cancelToken := some token
        stopTimer := if dur > 0 then some (dur, jobKey) else none }

/-- Model of `stopCPULoad`: under the lock, look the key up; when present,
invoke the cancel handle (returned as `some token`) and delete the entry;
otherwise a no-op. -/
def stopCPULoad (jobKey : String) (jobs : List (String × Nat)) :
    Option Nat × List (String × Nat) :=
  match mapLookup jobKey jobs with
  | some cancel => (some cancel, mapErase jobKey jobs)
  | none => (none, jobs)

end cpu

namespace log

/-! Embedding of `cmd/log/log.go`.  Ambient randomness (`math/rand`) is
modelled by an explicit `rnd : Nat` argument consumed via `%`, and the
background goroutine started by `LogHandler` is recorded in the handler
result as a `BgOutcome` describing its control-flow fate. -/

def shortMessages : List String := [
  "System operational (Fake message)",
  "Task completed (Fake message)",
  "Connection established (Fake message)",
  "Process started (Fake message)",
  "Data received (Fake message)",
  "Cache updated (Fake message)",
  "Request processed (Fake message)",
  "Service healthy (Fake message)",
  "User logged in (Fake message)",
  "File uploaded (Fake message)",
  "Backup completed (Fake message)",
  "Server restarted (Fake message)",
  "Config reloaded (Fake message)",
  "Queue emptied (Fake message)",
  "License validated (Fake message)",
  "Heartbeat sent (Fake message)",
  "Token refreshed (Fake message)",
  "Session created (Fake message)",
  "Metrics exported (Fake message)",
  "Alert cleared (Fake message)",
  "Job scheduled (Fake message)",
  "Route updated (Fake message)",
  "Certificate renewed (Fake message)",
  "Database synced (Fake message)",
  "Pipeline triggered (Fake message)"
]

def mediumMessages : List String := [
  "User authentication successful for session ABC123, redirecting to dashboard (Fake message)",
  "Database connection pool initialized with 10 connections, ready to serve requests (Fake message)",
  "Configuration loaded from environment variables, server starting on port 8080 (Fake message)",
  "Background job queue processed 25 items in 150ms, queue size now at 5 (Fake message)",
  "API rate limiting enabled, current threshold set to 100 requests per minute (Fake message)",
  "Memory usage at 45%, garbage collection triggered, freed 25MB of memory (Fake message)",
  "WebSocket connection established with client, real-time updates enabled (Fake message)",
  "Email notification sent successfully to user@example.com regarding order #12345 (Fake message)",
  "Load balancer health check passed, all 8 backend servers responding normally (Fake message)",
  "SSL certificate expiring in 30 days, automatic renewal process initiated (Fake message)",
  "Distributed cache warming completed, 50,000 keys preloaded in 2.3 seconds (Fake message)",
  "OAuth token validation successful, user permissions loaded from directory service (Fake message)",
  "File system cleanup removed 1.2GB of temporary files, disk space recovered (Fake message)",
  "Microservice deployment rollout completed, version 2.1.4 now serving 100% traffic (Fake message)",
  "Database index optimization finished, query performance improved by 35% average (Fake message)",
  "Message broker processed 10,000 events, all consumers keeping up with queue (Fake message)",
  "Container orchestrator scaled down 3 replicas, resource utilization optimized (Fake message)",
  "Monitoring alert threshold adjusted, reducing false positives by 60% (Fake message)",
  "Backup verification completed successfully, all 500GB data integrity confirmed (Fake message)",
  "Network latency to external API improved, average response time now 150ms (Fake message)",
  "User session store migrated to Redis cluster, improved response times observed (Fake message)",
  "Feature flag toggled for premium users, A/B testing framework activated (Fake message)",
  "Log aggregation pipeline processed 2M entries, search indices updated (Fake message)",
  "Security scan completed, no vulnerabilities detected in current deployment (Fake message)",
  "Auto-scaling policy triggered, adding 2 instances due to increased CPU usage (Fake message)"
]

def longMessages : List String := [
  "System performance analysis completed: CPU usage averaged 35% over the last hour with peaks reaching 78% during batch processing operations. Memory consumption remained stable at 2.1GB with minimal garbage collection overhead. Network I/O showed consistent patterns with 450MB inbound and 320MB outbound traffic. Database query performance metrics indicate average response time of 45ms with 99th percentile at 180ms. (Fake message)",
  "User session management update: Successfully migrated 15,000 active user sessions from Redis cluster node-1 to node-2 during scheduled maintenance window. Zero session data loss reported. Session timeout policies updated to extend idle timeout from 30 minutes to 60 minutes for improved user experience. Session cleanup process removed 2,847 expired sessions freeing up 180MB of memory. (Fake message)",
  "Microservices health check results: All 12 services reporting healthy status. API Gateway processed 145,000 requests in the last 10 minutes with 99.97% success rate. Service mesh configuration updated to implement circuit breaker pattern with 50% failure threshold and 30-second timeout. Load balancer distributed traffic evenly across 6 backend instances with average response time of 120ms. (Fake message)",
  "Data pipeline execution summary: ETL process extracted 2.3 million records from source systems, applied 47 transformation rules including data validation, normalization, and enrichment. Data quality checks identified and quarantined 156 records for manual review. Successfully loaded 2,299,844 records into data warehouse. Pipeline completed in 42 minutes, 15% faster than previous run due to query optimization. (Fake message)",
  "Container orchestration deployment analysis: Kubernetes cluster successfully deployed 45 new pods across 3 availability zones with zero downtime. Resource allocation shows 65% CPU utilization and 70% memory usage across all nodes. Persistent volume claims automatically provisioned 2.5TB of storage. Network policies updated to enhance security between namespaces. Ingress controller handling 50,000 requests per minute with SSL termination. (Fake message)",
  "Security audit and compliance report: Comprehensive security scan completed across all infrastructure components. 15 high-priority patches applied to operating systems and runtime environments. Access control policies reviewed and updated for 200 user accounts. Multi-factor authentication compliance achieved 95% adoption rate. Vulnerability assessment identified and remediated 3 medium-risk issues. Security event correlation system processed 100,000 events with 2 actionable alerts. (Fake message)",
  "Database optimization and maintenance cycle: Primary database cluster underwent maintenance window with automatic failover to secondary replica. Index rebuilding process completed for 25 tables, improving query performance by average 40%. Database statistics updated and query planner optimized. Connection pooling configuration tuned for peak load handling. Backup verification confirmed all 500GB of data successfully archived to remote storage. Transaction log cleanup recovered 50GB of disk space. (Fake message)",
  "Machine learning model deployment and monitoring: New recommendation engine model v3.2 deployed to production serving 10,000 users per minute. Model accuracy metrics show 12% improvement over previous version. Feature engineering pipeline processed 50 million data points in batch mode. A/B testing framework configured to gradually increase traffic to 25% of user base. Model inference latency maintained under 50ms p95. Automated retraining pipeline scheduled for weekly execution based on data drift detection. (Fake message)",
  "Network infrastructure upgrade completion: Core network switches upgraded to support 100Gbps backbone connectivity. Software-defined networking policies updated across 15 data centers. BGP routing optimization reduced inter-region latency by 15ms average. Firewall rules consolidated and optimized, improving packet processing throughput by 30%. Network monitoring enhanced with real-time visibility into traffic flows and performance metrics. Redundant paths established for critical service communications. (Fake message)",
  "Application performance monitoring insights: APM system analyzed 2 million transactions across 50 microservices over 24-hour period. Response time distribution shows 95th percentile under 200ms for critical user journeys. Error rate maintained below 0.1% with automatic retry mechanisms handling transient failures. Memory leak detection prevented 3 potential issues through proactive alerting. Database query optimization suggestions automatically applied, reducing slow query count by 45%. Custom dashboards updated with business-specific KPIs for executive visibility. (Fake message)",
  "Disaster recovery testing and validation: Annual DR exercise successfully completed with full system recovery achieved in 4 hours and 23 minutes, meeting SLA requirements. Database replication verified across geographically distributed backup sites. Application failover mechanisms tested under simulated network partition scenarios. Recovery point objective maintained at 15 minutes with zero data loss. Staff training completed for 25 team members on emergency procedures. Documentation updated with lessons learned and process improvements identified. (Fake message)",
  "DevOps pipeline optimization and automation: CI/CD pipeline enhanced with parallel testing stages, reducing build times from 45 minutes to 18 minutes. Automated security scanning integrated into deployment workflow with policy enforcement gates. Infrastructure as code templates updated to support multi-cloud deployment strategies. Container image vulnerability scanning implemented with automatic base image updates. Deployment rollback mechanisms tested and documented for rapid incident response. Monitoring and alerting configured for pipeline health and performance metrics. (Fake message)",
  "Customer data analytics and insights platform: Real-time analytics engine processed 10 billion events generating actionable insights for 500 business users. Data warehouse performance optimized with columnar storage and intelligent partitioning strategies. Machine learning algorithms identified 15 key customer behavior patterns driving product development decisions. Privacy compliance verified with automated PII detection and masking capabilities. Self-service analytics portal deployed enabling business teams to create custom reports and dashboards independently. (Fake message)",
  "Cloud cost optimization and resource management: Comprehensive cost analysis identified 30% savings opportunity through right-sizing and reserved instance optimization. Automated resource scheduling implemented for non-production environments, reducing off-hours costs by 60%. Multi-cloud strategy deployed across AWS, Azure, and GCP with intelligent workload placement. Tagging policies enforced for cost allocation and chargeback to business units. Unused resource detection and cleanup automation recovered $50,000 monthly cloud spend. (Fake message)",
  "API gateway and microservices architecture evolution: Service mesh deployment completed with Istio providing advanced traffic management and security policies. API versioning strategy implemented supporting backward compatibility for 200 client applications. Rate limiting and throttling policies fine-tuned based on usage patterns and service capacity. Circuit breaker patterns deployed preventing cascade failures during peak traffic events. Service discovery and load balancing optimized for sub-millisecond response times. Observability enhanced with distributed tracing across service boundaries. (Fake message)",
  "Quality assurance and testing automation framework: Test automation coverage increased to 85% with end-to-end scenario validation across web, mobile, and API interfaces. Performance testing infrastructure scaled to simulate 100,000 concurrent users with realistic load patterns. Security testing integrated into CI pipeline with OWASP compliance verification. Cross-browser testing automated across 15 browser and device combinations. Test data management enhanced with synthetic data generation and privacy-safe production data masking. Defect prediction models deployed reducing escaped bugs by 40%. (Fake message)",
  "Enterprise search and knowledge management platform: Elasticsearch cluster scaled to index 50 million documents with sub-second search response times. Natural language processing enhanced search relevance scoring and auto-completion features. Document classification algorithms automatically categorized and tagged 2 million knowledge base articles. Federated search implemented across 10 disparate data sources with unified result ranking. Access control integration ensures users only see authorized content based on role and permissions. Search analytics provide insights into user behavior and content gaps. (Fake message)",
  "Blockchain and distributed ledger implementation: Private blockchain network deployed with 12 validator nodes ensuring transaction immutability and consensus. Smart contracts developed and audited for supply chain transparency and digital asset management. Transaction throughput optimized to handle 10,000 operations per second with finality under 5 seconds. Integration APIs developed for legacy system connectivity with cryptographic proof verification. Governance framework established for network upgrades and protocol changes. Energy-efficient consensus mechanism reduces environmental impact by 75% compared to proof-of-work alternatives. (Fake message)",
  "Internet of Things sensor network deployment: 50,000 IoT sensors deployed across manufacturing facilities providing real-time equipment monitoring and predictive maintenance capabilities. Edge computing infrastructure processes 1 million sensor readings per minute with local analytics and alerting. Time-series database optimized for high-frequency data ingestion and efficient storage compression. Machine learning models identify equipment anomalies 6 hours before failure occurrence. Secure device provisioning and over-the-air update mechanisms ensure fleet management at scale. Digital twin technology provides virtual representation of physical assets for simulation and optimization. (Fake message)",
  "Augmented reality and computer vision platform: AR application framework supports 10,000 concurrent users with real-time object recognition and spatial mapping. Computer vision models trained on 2 million labeled images achieving 98% accuracy for industrial inspection use cases. 3D reconstruction algorithms process point cloud data from depth sensors creating photorealistic virtual environments. Gesture recognition system enables hands-free interaction with 15 distinct command patterns. Cloud-based rendering pipeline delivers high-quality AR experiences across mobile and headset devices. Performance optimization maintains 60fps rendering with sub-20ms motion-to-photon latency. (Fake message)"
]
/-- Model of `strings.ToLower`, applied character by character (the Go
function lowercases each rune; the allow-list members are ASCII). -/
def toLowerStr (s : String) : String :=
  String.mk (s.data.map Char.toLower)

/-- Parameters of the log endpoint (`LogParams`). -/
structure LogParams where
  level : String
  size : String
  message : String
  interval : Int
  duration : Int
  correlation : String
  deriving DecidableEq

/-- Model of `isValidLevel`: case-insensitive membership in the level
allow-list. -/
def isValidLevel (level : String) : Bool :=
  ["info", "warning", "error", "random"].contains (toLowerStr level)

/-- Model of `isValidSize`: case-insensitive membership in the size
allow-list. -/
def isValidSize (size : String) : Bool :=
  ["short", "medium", "long", "random"].contains (toLowerStr size)

/-- Indexing of `pool[rand.Intn(len(pool))]` with an explicit random value. -/
def pickMessage (rnd : Nat) (pool : List String) : String :=
  pool.getD (rnd % pool.length) ""

/-- Body of `generateLogMessage` for an already-lowercased concrete size;
the default branch returns `shortMessages[0]` as in the Go switch. -/
def generateLogMessageAux (rnd : Nat) (sizeLower : String) : String :=
  if sizeLower = "short" then pickMessage rnd shortMessages
  else if sizeLower = "medium" then pickMessage rnd mediumMessages
  else if sizeLower = "long" then pickMessage rnd longMessages
  else shortMessages.getD 0 ""

/-- Model of `generateLogMessage`: the `random` sentinel first picks one of
the three concrete sizes, then the Go function calls itself on that size. -/
def generateLogMessage (rnd : Nat) (size : String) : String :=
  if toLowerStr size = "random" then
    generateLogMessageAux (rnd / 3) (["short", "medium", "long"].getD (rnd % 3) "short")
  else generateLogMessageAux rnd (toLowerStr size)

/-- Model of `getActualLevel`: the `random` sentinel resolves to one of the
three concrete levels per invocation; anything else passes through. -/
def getActualLevel (rnd : Nat) (level : String) : String :=
  if (toLowerStr level) = "random" then
    ["info", "warning", "error"].getD (rnd % 3) "info"
  else level

/-- Model of `strings.HasSuffix` (the suffixes used are ASCII, where Go's
byte-level check coincides with this character-level check). -/
def hasSuffixStr (s sfx : String) : Bool :=
  sfx.data.isSuffixOf s.data

/-- Model of `getActualMessage`: a non-empty custom message takes
precedence over the size and gets the fixed marker appended unless already
present; an empty one triggers generation. -/
def getActualMessage (rnd : Nat) (customMessage size : String) : String :=
  if customMessage ≠ "" then
    if hasSuffixStr customMessage "(Fake message)" = false then
      customMessage ++ " (Fake message)"
    else customMessage
  else generateLogMessage rnd size

/-- Fate of the background logging goroutine spawned by `LogHandler`,
as determined by its control flow:
* `returnsAfter n` — the goroutine emits `n` entries and returns;
* `panicsAfter n` — after emitting `n` entries the goroutine faults: the
  `select` evaluates `durationTimer.C`, a field of a nil `*time.Timer`,
  which is a nil-pointer dereference (an unrecovered panic that crashes
  the whole process);
* `ticksUntilTimer` — the goroutine emits one entry immediately and one
  per ticker tick until the duration timer fires. -/
inductive BgOutcome where
  | returnsAfter (emitted : Nat)
  | panicsAfter (emitted : Nat)
  | ticksUntilTimer
  deriving DecidableEq

/-- Control-flow model of the background goroutine body, for already
validated `interval` and `duration`.  The goroutine creates a ticker only
when `interval > 0` and a duration timer only when `duration > 0`, emits
one entry immediately, returns when `interval == 0`, and otherwise enters
the `select` loop, whose `durationTimer.C` operand dereferences a nil
pointer when no duration timer was created. -/
def logBackground (interval duration : Int) : BgOutcome :=
  let durationTimer : Option Unit := if duration > 0 then some () else none
  if interval = 0 then .returnsAfter 1
  else
    match durationTimer with
    | none => .panicsAfter 1
    | some _ => .ticksUntilTimer

/-- Request to the log endpoint; `body = none` models a POST body that
fails JSON decoding.  `qMessage` carries the already URL-decoded message. -/
structure Request where
  method : Method
  qLevel : Option String
  qSize : Option String
  qMessage : Option String
  qInterval : Option Int
  qDuration : Option Int
  qCorrelation : Option String
  body : Option LogParams

/-- Parameter extraction of `LogHandler` (defaults info / short / "" /
0 / 0 / "true"). -/
def parseParams (r : Request) : Option LogParams :=
  match r.method with
  | .get =>
      some { level := r.qLevel.getD "info",
             size := r.qSize.getD "short",
             message := r.qMessage.getD "",
             interval := r.qInterval.getD 0,
             duration := r.qDuration.getD 0,
             correlation := r.qCorrelation.getD "true" }
  | .post => r.body

/-- Result of one `LogHandler` invocation.  `syncEmits` counts entries
written on the request goroutine itself; `background` records the spawned
goroutine's fate when one is started. -/
structure Result where
  status : Nat
  response : List (String × JVal)
  syncEmits : Nat
  background : Option BgOutcome
  deriving DecidableEq

/-- Model of `LogHandler`: validation (invalid enumerations and
out-of-range numbers default silently), then either one synchronous entry
(`interval == 0 && duration == 0`) or a background goroutine. -/
def LogHandler (rnd : Nat) (r : Request) : Result :=
  match parseParams r with
  | none =>
      { status := 400
        response := [("error", .str "Invalid JSON body")]
        syncEmits := 0
        background := none }
  | some p =>
      let level := if isValidLevel p.level then p.level else "info"
      let size := if isValidSize p.size then p.size else "short"
      let interval := if p.interval < 0 ∨ p.interval > 3600 then 0 else p.interval
      let dur := if p.duration < 0 ∨ p.duration > 86400 then 0 else p.duration
      let responseMessage := getActualMessage rnd p.message size
      { status := 200
        response :=
          [("level", .str level),
           ("size", .str size),
           ("message", .str responseMessage),
           ("interval", .num interval),
           ("duration", .num dur),
           ("correlation", .str p.correlation),
           ("status", .str "log generation started")]
        syncEmits := if interval = 0 ∧ dur = 0 then 1 else 0
        background :=
          if interval = 0 ∧ dur = 0 then none
          else some (logBackground interval dur) }

end log

namespace delay

/-! Embedding of the delay package (`DelayHandler`): a synchronous
handler; the sleep it performs on the request goroutine is recorded in
the result as `sleepSeconds`. -/

/-- Parameters of the delay endpoint (`DelayParams`). -/
structure DelayParams where
  duration : Int
  code : Int
  deriving DecidableEq

/-- Duration validation of `DelayHandler`: out of `[0, 300]` defaults to 0. -/
def validateDuration (d : Int) : Int :=
  if d < 0 ∨ d > 300 then 0 else d

/-- Status-code validation of `DelayHandler`: out of `[100, 599]` defaults
to 200. -/
def validateCode (c : Int) : Int :=
  if c < 100 ∨ c > 599 then 200 else c

/-- Request to the delay endpoint; `body = none` models a POST body that
fails JSON decoding. -/
structure Request where
  method : Method
  qDuration : Option Int
  qCode : Option Int
  body : Option DelayParams
  format : Option String

/-- Parameter extraction of `DelayHandler` (defaults 0 s / code 200). -/
def parseParams (r : Request) : Option DelayParams :=
  match r.method with
  | .get => some { duration := r.qDuration.getD 0, code := r.qCode.getD 200 }
  | .post => r.body

/-- Result of one `DelayHandler` invocation; `sleepSeconds` is the time
slept inline on the request goroutine (`time.Sleep` is skipped when the
validated duration is 0, which sleeps for 0 seconds either way). -/
structure Result where
  status : Int
  response : List (String × JVal)
  sleepSeconds : Int
  deriving DecidableEq

/-- Model of `DelayHandler`. -/
def DelayHandler (r : Request) : Result :=
  match parseParams r with
  | none =>
      { status := 400
        response := [("error", .str "Invalid JSON body")]
        sleepSeconds := 0 }
  | some p =>
      let dur := validateDuration p.duration
      let code := validateCode p.code
      let msg := "Delayed for " ++ intRepr dur ++ " seconds with status code "
        ++ intRepr code
      { status := code
        response :=
          if r.format = some "text" then [("body", .str (msg ++ "\n"))]
          else
            [("duration", .num dur),
             ("code", .num code),
             ("message", .str msg)]
        sleepSeconds := if dur > 0 then dur else 0 }

end delay

/-! Claim theorems. -/

/-- C3: for every requested memory size `s` in [1, 8192] MB, `allocateMemory`
stores under the allocation key a list of byte blocks whose lengths sum to
exactly `s * 1024 * 1024` bytes, consisting of
`⌊s * 1024 * 1024 / (10 * 1024 * 1024)⌋` full 10MB chunks followed by one
final chunk holding the remainder when the remainder is non-zero. -/
theorem c3_allocateMemory_chunks (s : Nat) (key : String)
    (st : List (String × List memory.ByteBlock)) (h1 : 1 ≤ s) (h2 : s ≤ 8192) :
    mapLookup key (memory.allocateMemory key s st) = some (memory.allocateBlocks s) ∧
    (memory.allocateBlocks s).map memory.ByteBlock.len =
      List.replicate (s * 1024 * 1024 / (10 * 1024 * 1024)) (10 * 1024 * 1024) ++
        (if s * 1024 * 1024 % (10 * 1024 * 1024) > 0
          then [s * 1024 * 1024 % (10 * 1024 * 1024)] else []) ∧
    ((memory.allocateBlocks s).map memory.ByteBlock.len).sum = s * 1024 * 1024 := by
  have hshape : (memory.allocateBlocks s).map memory.ByteBlock.len =
      List.replicate (s * 1024 * 1024 / (10 * 1024 * 1024)) (10 * 1024 * 1024) ++
        (if s * 1024 * 1024 % (10 * 1024 * 1024) > 0
          then [s * 1024 * 1024 % (10 * 1024 * 1024)] else []) := by
    unfold memory.allocateBlocks
    simp only [memory.chunkSize, List.map_append, List.map_map]
    congr 1
    · rw [show (memory.ByteBlock.len ∘ fun i => memory.mkBlock i (10 * 1024 * 1024))
            = fun _ => 10 * 1024 * 1024 from rfl]
      rw [List.map_const', List.length_range]
    · split_ifs with h
      · rfl
      · rfl
  refine ⟨mapLookup_insert_self _ _ _, hshape, ?_⟩
  rw [hshape, List.sum_append, List.sum_replicate, smul_eq_mul]
  split_ifs with h
  · simp only [List.sum_cons, List.sum_nil]
    omega
  · simp only [List.sum_nil]
    omega

/-- C3 witness: instantiation at 25 MB (two full chunks plus a 5MB
remainder chunk). -/
theorem c3_witness :
    (1 ≤ 25 ∧ 25 ≤ 8192) ∧
    (mapLookup "k" (memory.allocateMemory "k" 25 []) = some (memory.allocateBlocks 25) ∧
     (memory.allocateBlocks 25).map memory.ByteBlock.len =
       List.replicate (25 * 1024 * 1024 / (10 * 1024 * 1024)) (10 * 1024 * 1024) ++
         (if 25 * 1024 * 1024 % (10 * 1024 * 1024) > 0
           then [25 * 1024 * 1024 % (10 * 1024 * 1024)] else []) ∧
     ((memory.allocateBlocks 25).map memory.ByteBlock.len).sum = 25 * 1024 * 1024) :=
  ⟨⟨by decide, by decide⟩, c3_allocateMemory_chunks 25 "k" [] (by decide) (by decide)⟩

/-- C6: for every delay request whose duration parameter is outside
[0, 300], the handler sleeps for 0 seconds and the `duration` field of the
JSON response equals 0. -/
theorem c6_delay_out_of_range (r : delay.Request) (p : delay.DelayParams)
    (hp : delay.parseParams r = some p)
    (hd : p.duration < 0 ∨ 300 < p.duration) :
    delay.validateDuration p.duration = 0 ∧
    (delay.DelayHandler r).sleepSeconds = 0 ∧
    (r.format ≠ some "text" →
      mapLookup "duration" (delay.DelayHandler r).response = some (.num 0)) := by
  have hv : delay.validateDuration p.duration = 0 := by
    unfold delay.validateDuration
    rw [if_pos (by omega)]
  refine ⟨hv, ?_, ?_⟩
  · simp only [delay.DelayHandler, hp, hv]
    rfl
  · intro hf
    simp only [delay.DelayHandler, hp, hv]
    rw [if_neg (by simpa using hf)]
    rfl

/-- C6 witness: instantiation at duration 301 on a GET request. -/
theorem c6_witness :
    (delay.parseParams
        { method := .get, qDuration := some 301, qCode := none,
          body := none, format := none }
      = some { duration := 301, code := 200 } ∧ ((301 : Int) < 0 ∨ 300 < (301 : Int))) ∧
    (delay.validateDuration 301 = 0 ∧
     (delay.DelayHandler
         { method := .get, qDuration := some 301, qCode := none,
           body := none, format := none }).sleepSeconds = 0 ∧
     (({ method := .get, qDuration := some 301, qCode := none,
         body := none, format := none } : delay.Request).format ≠ some "text" →
       mapLookup "duration"
         (delay.DelayHandler
           { method := .get, qDuration := some 301, qCode := none,
             body := none, format := none }).response = some (.num 0))) :=
  ⟨⟨rfl, by decide⟩,
   c6_delay_out_of_range
     { method := .get, qDuration := some 301, qCode := none,
       body := none, format := none }
     { duration := 301, code := 200 } rfl (by decide)⟩

/-- C10: out-of-range numeric workload parameters default to fixed
constants: memory size outside [1, 8192] becomes 100 MB, and a memory or
CPU duration outside [0, 3600] becomes 60 seconds — in particular the
handlers still schedule a deallocation / stop timer after 60 seconds, so
an out-of-range duration never yields a run-forever job. -/
theorem c10_out_of_range_defaults (s d : Int) (ts heap : String) (numCPU : Nat)
    (mst : List (String × List memory.ByteBlock)) (cst : cpu.CpuState)
    (hs : s < 1 ∨ 8192 < s) (hd : d < 0 ∨ 3600 < d) :
    memory.validateSize s = 100 ∧
    memory.validateDuration d = 60 ∧
    cpu.validateDuration d = 60 ∧
    (memory.MemoryHandler ts heap
        { method := .get, qSize := some s, qDuration := some d,
          body := none, format := none } mst).dealloc
      = some (60, ts ++ "-" ++ intRepr 100) ∧
    (cpu.CPUHandler ts numCPU
        { method := .get, qIntensity := none, qDuration := some d,
          body := none, format := none } cst).stopTimer
      = some (60, cpu.mkJobKey (cst.counter + 1) ts) := by
  have hvs : memory.validateSize s = 100 := by
    unfold memory.validateSize
    rw [if_pos (by omega)]
  have hvd : memory.validateDuration d = 60 := by
    unfold memory.validateDuration
    rw [if_pos (by omega)]
  have hvc : cpu.validateDuration d = 60 := by
    unfold cpu.validateDuration
    rw [if_pos (by omega)]
  refine ⟨hvs, hvd, hvc, ?_, ?_⟩
  · simp only [memory.MemoryHandler, memory.parseParams, Option.getD_some, hvs, hvd]
    rfl
  · simp only [cpu.CPUHandler, cpu.parseParams, Option.getD_some, hvc]
    rfl

/-- C10 witness: instantiation at size 9000 and duration 4000. -/
theorem c10_witness :
    (((9000 : Int) < 1 ∨ 8192 < (9000 : Int)) ∧ ((4000 : Int) < 0 ∨ 3600 < (4000 : Int))) ∧
    (memory.validateSize 9000 = 100 ∧
     memory.validateDuration 4000 = 60 ∧
     cpu.validateDuration 4000 = 60 ∧
     (memory.MemoryHandler "20250101-120000" "1.00"
         { method := .get, qSize := some 9000, qDuration := some 4000,
           body := none, format := none } []).dealloc
       = some (60, "20250101-120000" ++ "-" ++ intRepr 100) ∧
     (cpu.CPUHandler "20250101-120000" 4
         { method := .get, qIntensity := none, qDuration := some 4000,
           body := none, format := none } { jobs := [], counter := 0 }).stopTimer
       = some (60, cpu.mkJobKey (({ jobs := [], counter := 0 } : cpu.CpuState).counter + 1)
           "20250101-120000")) :=
  ⟨⟨by decide, by decide⟩,
   c10_out_of_range_defaults 9000 4000 "20250101-120000" "1.00" 4 []
     { jobs := [], counter := 0 } (by decide) (by decide)⟩

/-- C1: a deallocation is scheduled if and only if the validated duration
is positive; with a positive duration the scheduled deallocation fires
after exactly that many seconds on the allocation key and removes it from
the active-allocation map, and with duration 0 no deallocation is
registered, so the key stays in the map. -/
theorem c1_memory_dealloc_iff (ts heap : String) (r : memory.Request)
    (p : memory.MemoryParams) (st : List (String × List memory.ByteBlock))
    (hp : memory.parseParams r = some p) :
    ((memory.MemoryHandler ts heap r st).dealloc.isSome
      ↔ 0 < memory.validateDuration p.duration) ∧
    (0 < memory.validateDuration p.duration →
      (memory.MemoryHandler ts heap r st).dealloc
        = some (memory.validateDuration p.duration,
            ts ++ "-" ++ intRepr (memory.validateSize p.size)) ∧
      mapLookup (ts ++ "-" ++ intRepr (memory.validateSize p.size))
        (memory.deallocateMemory
          (ts ++ "-" ++ intRepr (memory.validateSize p.size))
          (memory.MemoryHandler ts heap r st).blocks) = none) ∧
    (memory.validateDuration p.duration = 0 →
      (memory.MemoryHandler ts heap r st).dealloc = none ∧
      mapLookup (ts ++ "-" ++ intRepr (memory.validateSize p.size))
        (memory.MemoryHandler ts heap r st).blocks
        = some (memory.allocateBlocks (memory.validateSize p.size).toNat)) := by
  simp only [memory.MemoryHandler, hp]
  refine ⟨?_, ?_, ?_⟩
  · by_cases h : 0 < memory.validateDuration p.duration
    · simp [h]
    · simp [h]
  · intro h
    rw [if_pos h]
    exact ⟨rfl, mapLookup_erase_self _ _⟩
  · intro h
    rw [if_neg (by omega)]
    exact ⟨rfl, mapLookup_insert_self _ _ _⟩

/-- C1 witness: instantiation at duration 0 (key stays in the map, no
deallocation scheduled) for a GET request with size 50. -/
theorem c1_witness :
    memory.parseParams
        { method := .get, qSize := some 50, qDuration := some 0,
          body := none, format := none }
      = some { size := 50, duration := 0 } ∧
    ((memory.MemoryHandler "20250101-120000" "55.00"
        { method := .get, qSize := some 50, qDuration := some 0,
          body := none, format := none } []).dealloc.isSome
      ↔ 0 < memory.validateDuration 0) ∧
    (memory.validateDuration 0 = 0 →
      (memory.MemoryHandler "20250101-120000" "55.00"
          { method := .get, qSize := some 50, qDuration := some 0,
            body := none, format := none } []).dealloc = none) := by
  have h := c1_memory_dealloc_iff "20250101-120000" "55.00"
    { method := .get, qSize := some 50, qDuration := some 0,
      body := none, format := none }
    { size := 50, duration := 0 } [] rfl
  exact ⟨rfl, h.1, fun hz => (h.2.2 hz).1⟩

/-- C2: contrary to the claim that a log request with validated
`interval > 0` and `duration == 0` keeps emitting entries indefinitely
without faulting, the spawned background goroutine emits the one immediate
entry and then faults: since `duration == 0` no duration timer is created,
and the `select` evaluates `durationTimer.C` on a nil `*time.Timer`, a
nil-pointer dereference. -/
theorem c2_log_interval_forever_panics (rnd : Nat) (r : log.Request)
    (p : log.LogParams) (hp : log.parseParams r = some p)
    (hi : 0 < (if p.interval < 0 ∨ p.interval > 3600 then 0 else p.interval))
    (hd : (if p.duration < 0 ∨ p.duration > 86400 then 0 else p.duration) = 0) :
    (log.LogHandler rnd r).background = some (.panicsAfter 1) ∧
    (log.LogHandler rnd r).syncEmits = 0 := by
  simp only [log.LogHandler, hp]
  rw [if_neg (by omega)]
  constructor
  · simp only [log.logBackground]
    rw [if_neg (by omega), hd]
    rfl
  · rw [if_neg (by omega)]

/-- C2 witness: instantiation at interval 2, duration 0 on a GET request. -/
theorem c2_witness :
    (log.parseParams
        { method := .get, qLevel := none, qSize := none, qMessage := none,
          qInterval := some 2, qDuration := some 0, qCorrelation := none,
          body := none }
      = some { level := "info", size := "short", message := "", interval := 2,
               duration := 0, correlation := "true" } ∧
     (0 : Int) < (if (2 : Int) < 0 ∨ (2 : Int) > 3600 then 0 else 2) ∧
     (if (0 : Int) < 0 ∨ (0 : Int) > 86400 then (0 : Int) else 0) = 0) ∧
    (log.LogHandler 0
        { method := .get, qLevel := none, qSize := none, qMessage := none,
          qInterval := some 2, qDuration := some 0, qCorrelation := none,
          body := none }).background = some (.panicsAfter 1) :=
  ⟨⟨rfl, by decide, by decide⟩,
   (c2_log_interval_forever_panics 0
     { method := .get, qLevel := none, qSize := none, qMessage := none,
       qInterval := some 2, qDuration := some 0, qCorrelation := none,
       body := none }
     { level := "info", size := "short", message := "", interval := 2,
       duration := 0, correlation := "true" }
     rfl (by decide) (by decide)).1⟩

/-- C4: a POST whose body fails JSON decoding makes the log, cpu and
memory handlers return status 400 and change nothing: the CPU job map,
counter and the memory allocation map are untouched, and no goroutine
(deallocation, stop timer, worker, background logger) is started. -/
theorem c4_invalid_json_no_state_change (ts heap : String) (numCPU rnd : Nat)
    (mr : memory.Request) (cr : cpu.Request) (lr : log.Request)
    (mst : List (String × List memory.ByteBlock)) (cst : cpu.CpuState)
    (hm : mr.method = .post ∧ mr.body = none)
    (hc : cr.method = .post ∧ cr.body = none)
    (hl : lr.method = .post ∧ lr.body = none) :
    ((memory.MemoryHandler ts heap mr mst).status = 400 ∧
     (memory.MemoryHandler ts heap mr mst).blocks = mst ∧
     (memory.MemoryHandler ts heap mr mst).dealloc = none) ∧
    ((cpu.CPUHandler ts numCPU cr cst).status = 400 ∧
     (cpu.CPUHandler ts numCPU cr cst).state = cst ∧
     (cpu.CPUHandler ts numCPU cr cst).jobKey = none ∧
     (cpu.CPUHandler ts numCPU cr cst).workers = 0 ∧
     (cpu.CPUHandler ts numCPU cr cst).cancelToken = none ∧
     (cpu.CPUHandler ts numCPU cr cst).stopTimer = none) ∧
    ((log.LogHandler rnd lr).status = 400 ∧
     (log.LogHandler rnd lr).syncEmits = 0 ∧
     (log.LogHandler rnd lr).background = none) := by
  have hmp : memory.parseParams mr = none := by
    unfold memory.parseParams
    rw [hm.1, hm.2]
  have hcp : cpu.parseParams cr = none := by
    unfold cpu.parseParams
    rw [hc.1, hc.2]
  have hlp : log.parseParams lr = none := by
    unfold log.parseParams
    rw [hl.1, hl.2]
  refine ⟨?_, ?_, ?_⟩
  · simp [memory.MemoryHandler, hmp]
  · simp [cpu.CPUHandler, hcp]
  · simp [log.LogHandler, hlp]

/-- C4 witness: instantiation at concrete malformed-body POST requests. -/
theorem c4_witness :
    (memory.MemoryHandler "20250101-120000" "1.00"
        { method := .post, qSize := none, qDuration := none,
          body := none, format := none } []).status = 400 ∧
    (cpu.CPUHandler "20250101-120000" 4
        { method := .post, qIntensity := none, qDuration := none,
          body := none, format := none }
        { jobs := [], counter := 0 }).state
      = { jobs := [], counter := 0 } ∧
    (log.LogHandler 0
        { method := .post, qLevel := none, qSize := none, qMessage := none,
          qInterval := none, qDuration := none, qCorrelation := none,
          body := none }).background = none := by
  have h := c4_invalid_json_no_state_change "20250101-120000" "1.00" 4 0
    { method := .post, qSize := none, qDuration := none,
      body := none, format := none }
    { method := .post, qIntensity := none, qDuration := none,
      body := none, format := none }
    { method := .post, qLevel := none, qSize := none, qMessage := none,
      qInterval := none, qDuration := none, qCorrelation := none,
      body := none }
    [] { jobs := [], counter := 0 }
    ⟨rfl, rfl⟩ ⟨rfl, rfl⟩ ⟨rfl, rfl⟩
  exact ⟨h.1.1, h.2.1.2.1, h.2.2.2.2⟩

theorem intensity_lookup_isSome (s : String) :
    (mapLookup s cpu.intensityLevels).isSome = true
      ↔ s ∈ (["light", "medium", "heavy", "extreme"] : List String) := by
  simp only [mapLookup, cpu.intensityLevels, List.lookup_cons]
  by_cases h1 : s = "light"
  · subst h1; simp
  · rw [beq_false_of_ne h1]
    by_cases h2 : s = "medium"
    · subst h2; simp
    · rw [beq_false_of_ne h2]
      by_cases h3 : s = "heavy"
      · subst h3; simp
      · rw [beq_false_of_ne h3]
        by_cases h4 : s = "extreme"
        · subst h4; simp
        · rw [beq_false_of_ne h4]
          simp [h1, h2, h3, h4]

/-- C5 counterexample: "LIGHT" equals the tier name "light" ignoring case,
yet `ValidateIntensity` rejects it and the handler falls back to the
`medium` tier (whose configuration differs from the light tier's), so the
matching is not case-insensitive. -/
theorem c5_counterexample :
    log.toLowerStr "LIGHT" = "light" ∧
    (cpu.ValidateIntensity "light").2 = true ∧
    (cpu.ValidateIntensity "LIGHT").2 = false ∧
    mapLookup "intensity"
      (cpu.CPUHandler "20250101-120000" 4
        { method := .get, qIntensity := some "LIGHT", qDuration := some 60,
          body := none, format := none }
        { jobs := [], counter := 0 }).response
      = some (.str "medium") ∧
    mapLookup "description"
      (cpu.CPUHandler "20250101-120000" 4
        { method := .get, qIntensity := some "LIGHT", qDuration := some 60,
          body := none, format := none }
        { jobs := [], counter := 0 }).response
      = some (.str "Medium CPU stress - moderate system load") ∧
    (cpu.GetIntensityConfig "light").1 ≠ (cpu.GetIntensityConfig "medium").1 := by
  refine ⟨by decide, by decide, by decide, ?_, ?_, by decide⟩
  · rfl
  · rfl

/-- C5 amended: CPU intensity strings are matched case-sensitively against
the allow-list: an exact match selects that tier's configuration, and any
other string — including upper- or mixed-case variants of tier names — is
replaced by the default `medium` tier. -/
theorem c5_amended_case_sensitive (s ts : String) (numCPU : Nat)
    (qd : Option Int) (st : cpu.CpuState) :
    mapLookup "intensity"
      (cpu.CPUHandler ts numCPU
        { method := .get, qIntensity := some s, qDuration := qd,
          body := none, format := none } st).response
      = some (.str (if s ∈ (["light", "medium", "heavy", "extreme"] : List String)
          then s else "medium")) ∧
    mapLookup "description"
      (cpu.CPUHandler ts numCPU
        { method := .get, qIntensity := some s, qDuration := qd,
          body := none, format := none } st).response
      = some (.str (if s ∈ (["light", "medium", "heavy", "extreme"] : List String)
          then (cpu.GetIntensityConfig s).1.description
          else "Medium CPU stress - moderate system load")) := by
  by_cases hmem : s ∈ (["light", "medium", "heavy", "extreme"] : List String)
  · have hv : (mapLookup s cpu.intensityLevels).isSome = true :=
      (intensity_lookup_isSome s).2 hmem
    simp only [cpu.CPUHandler, cpu.parseParams, Option.getD_some,
      cpu.ValidateIntensity, hv, if_pos rfl, if_pos hmem]
    constructor
    · rfl
    · rfl
  · have hv : (mapLookup s cpu.intensityLevels).isSome = false := by
      cases hiv : (mapLookup s cpu.intensityLevels).isSome with
      | true => exact absurd ((intensity_lookup_isSome s).1 hiv) hmem
      | false => rfl
    simp only [cpu.CPUHandler, cpu.parseParams, Option.getD_some,
      cpu.ValidateIntensity, hv, if_neg hmem]
    constructor
    · rfl
    · rfl

theorem mkJobKey_counter_inj (a b : Nat) (ts1 ts2 : String)
    (hts : ts1.length = ts2.length)
    (h : cpu.mkJobKey a ts1 = cpu.mkJobKey b ts2) : a = b := by
  have hd := congrArg String.data h
  simp only [cpu.mkJobKey, String.data_append, List.append_assoc] at hd
  have hts' : ts1.data.length = ts2.data.length := hts
  have hlen : (Nat.repr a).data.length = (Nat.repr b).data.length := by
    have hl := congrArg List.length hd
    simp only [List.length_append] at hl
    omega
  have h2 := List.append_cancel_left hd
  have h3 := (List.append_inj h2 hlen).1
  have h4 : digitsSpec a = digitsSpec b := by
    rw [← natRepr_data, ← natRepr_data]
    exact h3
  have h5 := congrArg decodeDigits h4
  rwa [decodeDigits_digitsSpec, decodeDigits_digitsSpec] at h5

/-- C7: two CPU handler invocations that both start a job get distinct
job keys (the key embeds the counter, which strictly increases under the
registry lock), and cancelling the first key via `stopCPULoad` invokes
exactly that job's cancellation handle and leaves the other job's registry
entry (and hence its worker pool's handle) untouched.  The hypothesis that
the two timestamps render to equally long strings is discharged by the
fixed-width `"20060102-150405"` format. -/
theorem c7_distinct_jobs_independent_cancel (ts1 ts2 : String) (n1 n2 : Nat)
    (r1 r2 : cpu.Request) (p1 p2 : cpu.CPUParams) (st : cpu.CpuState)
    (hts : ts1.length = ts2.length)
    (h1 : cpu.parseParams r1 = some p1) (h2 : cpu.parseParams r2 = some p2) :
    (cpu.CPUHandler ts1 n1 r1 st).jobKey
      = some (cpu.mkJobKey (st.counter + 1) ts1) ∧
    (cpu.CPUHandler ts2 n2 r2 (cpu.CPUHandler ts1 n1 r1 st).state).jobKey
      = some (cpu.mkJobKey (st.counter + 2) ts2) ∧
    (cpu.CPUHandler ts1 n1 r1 st).state.counter = st.counter + 1 ∧
    (cpu.CPUHandler ts2 n2 r2 (cpu.CPUHandler ts1 n1 r1 st).state).state.counter
      = st.counter + 2 ∧
    cpu.mkJobKey (st.counter + 1) ts1 ≠ cpu.mkJobKey (st.counter + 2) ts2 ∧
    cpu.stopCPULoad (cpu.mkJobKey (st.counter + 1) ts1)
        (cpu.CPUHandler ts2 n2 r2 (cpu.CPUHandler ts1 n1 r1 st).state).state.jobs
      = (some (st.counter + 1),
         mapErase (cpu.mkJobKey (st.counter + 1) ts1)
           (cpu.CPUHandler ts2 n2 r2
             (cpu.CPUHandler ts1 n1 r1 st).state).state.jobs) ∧
    mapLookup (cpu.mkJobKey (st.counter + 2) ts2)
        (mapErase (cpu.mkJobKey (st.counter + 1) ts1)
          (cpu.CPUHandler ts2 n2 r2
            (cpu.CPUHandler ts1 n1 r1 st).state).state.jobs)
      = some (st.counter + 2) := by
  have hkne : cpu.mkJobKey (st.counter + 1) ts1 ≠ cpu.mkJobKey (st.counter + 2) ts2 := by
    intro he
    have := mkJobKey_counter_inj (st.counter + 1) (st.counter + 2) ts1 ts2 hts he
    omega
  simp only [cpu.CPUHandler, h1, h2]
  refine ⟨trivial, trivial, trivial, trivial, hkne, ?_, ?_⟩
  · unfold cpu.stopCPULoad
    rw [mapLookup_insert_ne _ _ _ _ hkne, mapLookup_insert_self]
  · rw [mapLookup_erase_ne _ _ _ (fun he => hkne he.symm),
      mapLookup_insert_self]

/-- C7 witness: two concrete GET invocations from the empty registry. -/
theorem c7_witness :
    ("20250101-120000" : String).length = ("20250101-120001" : String).length ∧
    cpu.mkJobKey 1 "20250101-120000" ≠ cpu.mkJobKey 2 "20250101-120001" ∧
    cpu.stopCPULoad (cpu.mkJobKey 1 "20250101-120000")
        (cpu.CPUHandler "20250101-120001" 4
          { method := .get, qIntensity := some "heavy", qDuration := some 30,
            body := none, format := none }
          (cpu.CPUHandler "20250101-120000" 4
            { method := .get, qIntensity := some "light", qDuration := some 20,
              body := none, format := none }
            { jobs := [], counter := 0 }).state).state.jobs
      = (some 1,
         mapErase (cpu.mkJobKey 1 "20250101-120000")
           (cpu.CPUHandler "20250101-120001" 4
             { method := .get, qIntensity := some "heavy", qDuration := some 30,
               body := none, format := none }
             (cpu.CPUHandler "20250101-120000" 4
               { method := .get, qIntensity := some "light", qDuration := some 20,
                 body := none, format := none }
               { jobs := [], counter := 0 }).state).state.jobs) := by
  have h := c7_distinct_jobs_independent_cancel "20250101-120000" "20250101-120001" 4 4
    { method := .get, qIntensity := some "light", qDuration := some 20,
      body := none, format := none }
    { method := .get, qIntensity := some "heavy", qDuration := some 30,
      body := none, format := none }
    { intensity := "light", duration := 20 }
    { intensity := "heavy", duration := 30 }
    { jobs := [], counter := 0 }
    (by decide) rfl rfl
  exact ⟨by decide, h.2.2.2.2.1, h.2.2.2.2.2.1⟩

theorem hasSuffixStr_append_marker (x : String) :
    log.hasSuffixStr (x ++ " (Fake message)") "(Fake message)" = true := by
  unfold log.hasSuffixStr
  rw [String.data_append]
  have hsfx : ("(Fake message)" : String).data
      <:+ x.data ++ (" (Fake message)" : String).data := by
    refine ⟨x.data ++ [' '], ?_⟩
    rw [List.append_assoc]
    congr 1
  exact List.isSuffixOf_iff_suffix.mpr hsfx

theorem append_marker_ne_empty (x : String) : x ++ " (Fake message)" ≠ "" := by
  intro h
  have hd := congrArg String.data h
  rw [String.data_append] at hd
  simp at hd

/-- C8: for every non-empty custom log message `m`, `getActualMessage`
returns `m` itself when `m` already ends with the marker `"(Fake message)"`
and `m ++ " (Fake message)"` otherwise; the function is idempotent on its
result, and `m` is always a prefix of the result. -/
theorem c8_getActualMessage_marker (rnd rnd2 : Nat) (m size size2 : String)
    (hm : m ≠ "") :
    (log.hasSuffixStr m "(Fake message)" = true →
      log.getActualMessage rnd m size = m) ∧
    (log.hasSuffixStr m "(Fake message)" = false →
      log.getActualMessage rnd m size = m ++ " (Fake message)") ∧
    log.getActualMessage rnd2 (log.getActualMessage rnd m size) size2
      = log.getActualMessage rnd m size ∧
    (∃ t, m.data ++ t = (log.getActualMessage rnd m size).data) := by
  have hres : log.getActualMessage rnd m size
      = if log.hasSuffixStr m "(Fake message)" = false
        then m ++ " (Fake message)" else m := by
    unfold log.getActualMessage
    rw [if_pos hm]
  cases hsfx : log.hasSuffixStr m "(Fake message)" with
  | true =>
    have hr : log.getActualMessage rnd m size = m := by
      rw [hres, hsfx]
      simp
    refine ⟨fun _ => hr, fun hcontra => by simp [hsfx] at hcontra, ?_, ?_⟩
    · rw [hr]
      unfold log.getActualMessage
      rw [if_pos hm, hsfx]
      simp
    · exact ⟨[], by rw [hr, List.append_nil]⟩
  | false =>
    have hr : log.getActualMessage rnd m size = m ++ " (Fake message)" := by
      rw [hres, hsfx]
      simp
    refine ⟨fun hcontra => by simp [hsfx] at hcontra, fun _ => hr, ?_, ?_⟩
    · rw [hr]
      unfold log.getActualMessage
      rw [if_pos (append_marker_ne_empty m), hasSuffixStr_append_marker m]
      simp
    · refine ⟨(" (Fake message)" : String).data, ?_⟩
      rw [hr, String.data_append]

/-- C8 witness: instantiation at the message "hello" (marker absent) with
idempotence and prefix preservation evaluated concretely. -/
theorem c8_witness :
    ("hello" : String) ≠ "" ∧
    (log.hasSuffixStr "hello" "(Fake message)" = false →
      log.getActualMessage 0 "hello" "short" = "hello" ++ " (Fake message)") ∧
    log.getActualMessage 1 (log.getActualMessage 0 "hello" "short") "long"
      = log.getActualMessage 0 "hello" "short" :=
  ⟨by decide,
   (c8_getActualMessage_marker 0 1 "hello" "short" "long" (by decide)).2.1,
   (c8_getActualMessage_marker 0 1 "hello" "short" "long" (by decide)).2.2.1⟩

/-- C9: evaluation of the memory handler at `GET /memory?size=50&duration=0`.
The request returns status 200 and a non-empty allocation key that is
present in the active-allocation map with no deallocation scheduled, but
the `size_mb` and `duration` response fields are the JSON *strings* "50"
and "0" (built with `fmt.Sprintf("%d", ...)`), not the JSON numbers 50
and 0 that the claim and the package's own tests
(`memory_test.go`, which asserts `response["size_mb"] != float64(...)`)
expect. -/
theorem c9_memory_get_50_0_fields :
    (memory.MemoryHandler "20250101-120000" "55.27"
        { method := .get, qSize := some 50, qDuration := some 0,
          body := none, format := none } []).status = 200 ∧
    mapLookup "size_mb"
      (memory.MemoryHandler "20250101-120000" "55.27"
        { method := .get, qSize := some 50, qDuration := some 0,
          body := none, format := none } []).response = some (.str "50") ∧
    mapLookup "size_mb"
      (memory.MemoryHandler "20250101-120000" "55.27"
        { method := .get, qSize := some 50, qDuration := some 0,
          body := none, format := none } []).response ≠ some (.num 50) ∧
    mapLookup "duration"
      (memory.MemoryHandler "20250101-120000" "55.27"
        { method := .get, qSize := some 50, qDuration := some 0,
          body := none, format := none } []).response = some (.str "0") ∧
    mapLookup "duration"
      (memory.MemoryHandler "20250101-120000" "55.27"
        { method := .get, qSize := some 50, qDuration := some 0,
          body := none, format := none } []).response ≠ some (.num 0) ∧
    mapLookup "allocation_key"
      (memory.MemoryHandler "20250101-120000" "55.27"
        { method := .get, qSize := some 50, qDuration := some 0,
          body := none, format := none } []).response
      = some (.str "20250101-120000-50") ∧
    ("20250101-120000-50" : String) ≠ "" ∧
    (mapLookup "20250101-120000-50"
      (memory.MemoryHandler "20250101-120000" "55.27"
        { method := .get, qSize := some 50, qDuration := some 0,
          body := none, format := none } []).blocks).isSome = true ∧
    (memory.MemoryHandler "20250101-120000" "55.27"
        { method := .get, qSize := some 50, qDuration := some 0,
          body := none, format := none } []).dealloc = none := by
  refine ⟨rfl, ?_, ?_, ?_, ?_, ?_, by decide, rfl, rfl⟩
  · rfl
  · decide
  · rfl
  · decide
  · rfl
